import Mathlib

/-!
Shallow embedding of `src/debugger/GetTickCount.rs`.

The program is a timer-based anti-debugging probe.  `is_being_debugged`
records a monotonic start instant, sleeps for 10 ms, measures the elapsed
time in milliseconds, and returns `true` (printing a warning line) exactly
when the elapsed time strictly exceeds the caller-supplied threshold.
`main` calls the probe with a built-in threshold of 5000 ms and prints one
of two verdict lines.

Modelling choices:
  * Millisecond counts (`u128` in the source) are modelled as `Nat`; the
    program performs no arithmetic on them that could overflow, only
    comparisons, so no reduction modulo 2^128 is needed.
  * The nondeterministic wall-clock measurement is made explicit: a run of
    the probe is determined by the monotonic-clock readings (in
    nanoseconds) taken at `Instant::now()` and at `start_time.elapsed()`.
    Per the documented semantics of the host primitives, the monotonic
    clock never moves backward and `std::thread::sleep(d)` blocks the
    thread for at least `d`; `ValidRun` records exactly these guarantees.
  * Standard output is modelled as the list of lines printed, in order.
-/

/-- Nanoseconds per millisecond, the conversion factor used by
`Duration::as_millis`. -/
def nsPerMs : Nat := 1000000

/-- Rust's `Duration::as_millis` applied to a duration of `ns` nanoseconds:
truncating division by 10^6. -/
def as_millis (ns : Nat) : Nat := ns / nsPerMs

/-- The fixed simulated workload of the probe:
`std::thread::sleep(std::time::Duration::from_millis(10))`. -/
def simulatedDelayMs : Nat := 10

/-- The diagnostic line printed by the probe when the threshold is
exceeded (the `println!` at lines 22-25 of the source, with the elapsed
millisecond count interpolated). -/
def warning_line (elapsed_time : Nat) : String :=
  "Routine took too long to execute: " ++ toString elapsed_time
    ++ " ms, possibly being debugged."

/-- The pure core of `fn is_being_debugged(threshold_ms: u128) -> bool`,
after the elapsed-time measurement has been taken: given the measured
`elapsed_time` in milliseconds and the threshold, it returns the boolean
verdict together with the lines the function printed to standard output.
This is a direct transcription of lines 21-28 of the source: if
`elapsed_time > threshold_ms` print the warning and return `true`,
otherwise print nothing and return `false`. -/
def is_being_debugged (elapsed_time threshold_ms : Nat) : Bool × List String :=
  if elapsed_time > threshold_ms then
    (true, [warning_line elapsed_time])
  else
    (false, [])

/-- A run of the probe is characterised by the monotonic-clock readings, in
nanoseconds, at `Instant::now()` (`startNs`) and at the moment
`start_time.elapsed()` is taken (`endNs`).  `ValidRun` states the
guarantees of the host primitives: the monotonic clock never moves
backward, and the intervening `sleep` of `simulatedDelayMs` milliseconds
blocks for at least that long, so at least `simulatedDelayMs * nsPerMs`
nanoseconds separate the two readings. -/
abbrev ValidRun (startNs endNs : Nat) : Prop :=
  startNs + simulatedDelayMs * nsPerMs ≤ endNs

/-- The elapsed-time measurement of a run:
`start_time.elapsed().as_millis()` at line 20 of the source. -/
def measured_ms (startNs endNs : Nat) : Nat := as_millis (endNs - startNs)

/-- One full execution of `is_being_debugged` in the run determined by the
clock readings `startNs`, `endNs`. -/
def run_probe (startNs endNs threshold_ms : Nat) : Bool × List String :=
  is_being_debugged (measured_ms startNs endNs) threshold_ms

/-- The threshold hard-coded in `fn main` (line 32 of the source). -/
def main_threshold : Nat := 5000

/-- The standard output of the whole program (probe plus `fn main`) as a
function of the measured elapsed time and the threshold: the lines printed
inside the probe, followed by the single verdict line printed by `main`
(lines 33-37 of the source). -/
def program_output (elapsed_time threshold_ms : Nat) : List String :=
  let r := is_being_debugged elapsed_time threshold_ms
  r.2 ++ [if r.1 then "Debugging detected!" else "No debugging detected."]

/-- The standard output of `fn main` in the run determined by the clock
readings `startNs`, `endNs`, with the built-in threshold.  `fn main` takes
no command-line arguments, so the run is the only parameter. -/
def main_stdout (startNs endNs : Nat) : List String :=
  program_output (measured_ms startNs endNs) main_threshold

/-- Helper: in every valid run the measured millisecond count is at least
the simulated delay, because at least `simulatedDelayMs * nsPerMs`
nanoseconds elapse and `as_millis` divides (truncating) by `nsPerMs`. -/
theorem measured_ms_lower (startNs endNs : Nat) (h : ValidRun startNs endNs) :
    simulatedDelayMs ≤ measured_ms startNs endNs := by
  have hsub : simulatedDelayMs * nsPerMs ≤ endNs - startNs := by
    omega
  have hpos : 0 < nsPerMs := by decide
  exact (Nat.le_div_iff_mul_le hpos).mpr hsub

/-- C1: for every measured elapsed time and every threshold, the verdict of
`is_being_debugged` is `true` exactly when the elapsed time strictly
exceeds the threshold; in particular, when the elapsed time equals the
threshold the verdict is `false`. -/
theorem is_being_debugged_strict_threshold :
    ∀ elapsed_time threshold_ms : Nat,
      ((is_being_debugged elapsed_time threshold_ms).1 = true
        ↔ threshold_ms < elapsed_time)
      ∧ (is_being_debugged threshold_ms threshold_ms).1 = false := by
  intro e t
  refine ⟨?_, ?_⟩
  · unfold is_being_debugged
    split
    · simp
      omega
    · simp
      omega
  · unfold is_being_debugged
    simp

/-- C2: for every simulated delay `D` (taken as the measured elapsed time)
and threshold `T`, the probe prints the warning line exactly when it
returns `true`; when `D > T` it returns `true` and prints exactly the
warning line, and when `D ≤ T` it returns `false` and prints nothing. -/
theorem is_being_debugged_message_iff_true :
    ∀ D T : Nat,
      ((is_being_debugged D T).2 ≠ [] ↔ (is_being_debugged D T).1 = true)
      ∧ (T < D → is_being_debugged D T = (true, [warning_line D]))
      ∧ (D ≤ T → is_being_debugged D T = (false, [])) := by
  intro D T
  unfold is_being_debugged
  refine ⟨?_, ?_, ?_⟩
  · split
    · simp
    · simp
  · intro h
    simp [h]
  · intro h
    simp [Nat.not_lt.mpr h]

/-- Witness for C2 at the concrete delay 10 ms and threshold 5 ms. -/
theorem is_being_debugged_message_iff_true_witness :
    (is_being_debugged 10 5).2 ≠ [] ∧
      is_being_debugged 10 5 = (true, [warning_line 10]) := by
  have h := (is_being_debugged_message_iff_true 10 5).2.1 (by decide)
  exact ⟨((is_being_debugged_message_iff_true 10 5).1).mpr (by rw [h]), h⟩

/-- C3: in every valid run, the measured elapsed time is at least the
10 ms simulated delay, because the monotonic clock cannot report less time
than actually elapsed. -/
theorem measured_ms_ge_simulated_delay :
    ∀ startNs endNs : Nat, ValidRun startNs endNs →
      simulatedDelayMs ≤ measured_ms startNs endNs := by
  intro s e h
  exact measured_ms_lower s e h

/-- Witness for C3 at the concrete run with clock readings 0 and 10^7 ns. -/
theorem measured_ms_ge_simulated_delay_witness :
    ValidRun 0 10000000 ∧ simulatedDelayMs ≤ measured_ms 0 10000000 :=
  ⟨by decide, measured_ms_ge_simulated_delay 0 10000000 (by decide)⟩

/-- C4: in every valid run with threshold 5 ms, the probe returns `true`
and the program prints the elapsed-time warning line followed by the line
printed by `main` when debugging is detected. -/
theorem threshold_five_detects :
    ∀ startNs endNs : Nat, ValidRun startNs endNs →
      (run_probe startNs endNs 5).1 = true
      ∧ program_output (measured_ms startNs endNs) 5
          = [warning_line (measured_ms startNs endNs), "Debugging detected!"] := by
  intro s e h
  have h10 : simulatedDelayMs ≤ measured_ms s e := measured_ms_lower s e h
  have h5 : 5 < measured_ms s e := by
    unfold simulatedDelayMs at h10
    omega
  refine ⟨?_, ?_⟩
  · unfold run_probe is_being_debugged
    simp [h5]
  · unfold program_output is_being_debugged
    simp [h5]

/-- Witness for C4 at the concrete run with clock readings 0 and 10^7 ns. -/
theorem threshold_five_detects_witness :
    (run_probe 0 10000000 5).1 = true
    ∧ program_output (measured_ms 0 10000000) 5
        = [warning_line (measured_ms 0 10000000), "Debugging detected!"] :=
  threshold_five_detects 0 10000000 (by decide)

/-- C5: the built-in threshold of `main` is 5000 ms, and in any run whose
measured elapsed time equals the 10 ms simulated delay the probe returns
`false` and the program prints only the no-debugging line. -/
theorem builtin_threshold_not_detected :
    ∀ startNs endNs : Nat,
      measured_ms startNs endNs = simulatedDelayMs →
      main_threshold = 5000
      ∧ (run_probe startNs endNs main_threshold).1 = false
      ∧ main_stdout startNs endNs = ["No debugging detected."] := by
  intro s e h
  refine ⟨rfl, ?_, ?_⟩
  · unfold run_probe is_being_debugged
    simp [h, simulatedDelayMs, main_threshold]
  · unfold main_stdout program_output is_being_debugged
    simp [h, simulatedDelayMs, main_threshold]

/-- Witness for C5 at the concrete run with clock readings 0 and 10^7 ns,
whose measured elapsed time is exactly 10 ms. -/
theorem builtin_threshold_not_detected_witness :
    main_threshold = 5000
    ∧ (run_probe 0 10000000 main_threshold).1 = false
    ∧ main_stdout 0 10000000 = ["No debugging detected."] :=
  builtin_threshold_not_detected 0 10000000 (by decide)

/-- C6 counterexample: in the valid run with clock readings 0 and
6·10^9 ns (measured elapsed time 6000 ms, exceeding the built-in 5000 ms
threshold), the program's standard output is neither of the two verdict
lines alone: the probe's warning line is printed as well, so the whole
standard output is not one of exactly two possible text lines. -/
theorem main_two_lines_counterexample :
    ValidRun 0 6000000000 ∧
      ¬ (main_stdout 0 6000000000 = ["Debugging detected!"]
         ∨ main_stdout 0 6000000000 = ["No debugging detected."]) := by
  refine ⟨by decide, ?_⟩
  intro h
  have hlen : (main_stdout 0 6000000000).length = 2 := by
    unfold main_stdout program_output is_being_debugged measured_ms as_millis
    norm_num [main_threshold, nsPerMs]
  rcases h with h | h <;> rw [h] at hlen <;> exact absurd hlen (by decide)

/-- C6 amended: the entry point takes no arguments beyond the run itself;
its standard output consists of the lines printed inside the probe followed
by exactly one final verdict line determined by the boolean verdict, and
that final line is one of exactly two possible text lines. -/
theorem main_verdict_line :
    ∀ startNs endNs : Nat,
      main_stdout startNs endNs
        = (run_probe startNs endNs main_threshold).2
          ++ [if (run_probe startNs endNs main_threshold).1
              then "Debugging detected!" else "No debugging detected."]
      ∧ ((main_stdout startNs endNs).getLast? = some ("Debugging detected!")
         ∨ (main_stdout startNs endNs).getLast? = some ("No debugging detected.")) := by
  intro s e
  refine ⟨rfl, ?_⟩
  unfold main_stdout program_output
  rcases hb : (is_being_debugged (measured_ms s e) main_threshold).1 with _ | _
  · right
    simp [hb, List.getLast?_concat]
  · left
    simp [hb, List.getLast?_concat]

/-- C7: for every measured elapsed time and threshold, the probe cannot
fail: it terminates in one of exactly two normal outcomes, returning
`true` with the warning line or `false` with no output—there is no error
branch, panic, or other failure path. -/
theorem is_being_debugged_total :
    ∀ elapsed_time threshold_ms : Nat,
      is_being_debugged elapsed_time threshold_ms
          = (true, [warning_line elapsed_time])
      ∨ is_being_debugged elapsed_time threshold_ms = (false, []) := by
  intro e t
  unfold is_being_debugged
  split
  · exact Or.inl rfl
  · exact Or.inr rfl

/-- C8: the verdict is antitone in the threshold: for a fixed measured
elapsed time, if the probe returns `false` at threshold `T` then it
returns `false` at every `T' ≥ T`, and if it returns `true` at `T'` then
it returns `true` at every smaller threshold `T`. -/
theorem is_being_debugged_antitone :
    ∀ e T Tbig : Nat, T ≤ Tbig →
      ((is_being_debugged e T).1 = false → (is_being_debugged e Tbig).1 = false)
      ∧ ((is_being_debugged e Tbig).1 = true → (is_being_debugged e T).1 = true) := by
  intro e T Tbig hle
  unfold is_being_debugged
  constructor
  · intro hfalse
    have hnot : ¬ T < e := by
      by_contra hc
      simp [hc] at hfalse
    have : ¬ Tbig < e := by omega
    simp [this]
  · intro htrue
    have hlt : Tbig < e := by
      by_contra hc
      simp [hc] at htrue
    have : T < e := by omega
    simp [this]

/-- Witness for C8 at elapsed time 10 with thresholds 20 ≤ 30 (propagating
`false` upward) and 3 ≤ 5 (propagating `true` downward). -/
theorem is_being_debugged_antitone_witness :
    (is_being_debugged 10 30).1 = false ∧ (is_being_debugged 10 3).1 = true :=
  ⟨(is_being_debugged_antitone 10 20 30 (by decide)).1 (by decide),
   (is_being_debugged_antitone 10 3 5 (by decide)).2 (by decide)⟩

/-- C9: the probe is deterministic in its measurement: two runs with equal
measured elapsed times and equal thresholds produce the same boolean
verdict and the same standard output, both from the probe and from the
whole program. -/
theorem probe_deterministic :
    ∀ s1 e1 s2 e2 T : Nat,
      measured_ms s1 e1 = measured_ms s2 e2 →
      run_probe s1 e1 T = run_probe s2 e2 T
      ∧ program_output (measured_ms s1 e1) T
          = program_output (measured_ms s2 e2) T := by
  intro s1 e1 s2 e2 T h
  unfold run_probe
  rw [h]
  exact ⟨rfl, rfl⟩

/-- Witness for C9: the runs (0, 10^7) and (5, 10^7 + 5) both measure
10 ms and yield identical results at threshold 5000. -/
theorem probe_deterministic_witness :
    run_probe 0 10000000 5000 = run_probe 5 10000005 5000
    ∧ program_output (measured_ms 0 10000000) 5000
        = program_output (measured_ms 5 10000005) 5000 :=
  probe_deterministic 0 10000000 5 10000005 5000 (by decide)

/-- C10: with threshold 0, the probe returns `true` in every valid run,
because the measured elapsed time is at least the 10 ms simulated delay
and hence strictly positive. -/
theorem threshold_zero_always_true :
    ∀ startNs endNs : Nat, ValidRun startNs endNs →
      (run_probe startNs endNs 0).1 = true := by
  intro s e h
  have h10 : simulatedDelayMs ≤ measured_ms s e := measured_ms_lower s e h
  have hpos : 0 < measured_ms s e := by
    unfold simulatedDelayMs at h10
    omega
  unfold run_probe is_being_debugged
  simp [hpos]

/-- Witness for C10 at the concrete run with clock readings 0 and 10^7 ns. -/
theorem threshold_zero_always_true_witness :
    (run_probe 0 10000000 0).1 = true :=
  threshold_zero_always_true 0 10000000 (by decide)
